import Mathlib

/-!
Verification of `src/python-mcp-server/server.py`.

The script registers a single tool function:

```python
@mcp.tool()
def get_employee_info(name : str) -> str:
    return {
        "employee_name" : name,
        "salary":5400,
    }
```

We embed the Python runtime values the body can produce (strings, integers,
string-keyed dicts) as the inductive type `PyValue`, and the function body as
the Lean function `get_employee_info`.  The body is a single `return` of a
dict literal built from the parameter and an integer literal, so the
embedding is a pure total function.
-/

/-- Python runtime values relevant to this script: text, integers, and
string-keyed dictionaries (insertion-ordered, as in CPython). -/
inductive PyValue where
  | str (s : String)
  | int (i : Int)
  | dict (entries : List (String × PyValue))

/-- Static type tags of Python values, used to compare the value actually
returned against the annotated return type of the source function. -/
inductive PyTypeTag where
  | strTag
  | intTag
  | dictTag
deriving DecidableEq

/-- The dynamic type of a `PyValue`. -/
def pyTypeOf : PyValue → PyTypeTag
  | .str _ => .strTag
  | .int _ => .intTag
  | .dict _ => .dictTag

/-- The key list of a dict value, in insertion order; `none` on non-dicts. -/
def dictKeys : PyValue → Option (List String)
  | .dict entries => some (entries.map Prod.fst)
  | _ => none

/-- Subscript lookup `v[k]` on a dict value; `none` on non-dicts or a
missing key. -/
def dictLookup (k : String) : PyValue → Option PyValue
  | .dict entries => entries.lookup k
  | _ => none

/-- Embedding of the body of `get_employee_info` from
`src/python-mcp-server/server.py`: it returns the dict literal
`{"employee_name": name, "salary": 5400}`. -/
def get_employee_info (name : String) : PyValue :=
  .dict [("employee_name", .str name), ("salary", .int 5400)]

/-- The return type annotation written in the source: `-> str`. -/
def get_employee_info_annotated_return : PyTypeTag := .strTag

/-- Invocation of the tool as the framework sees it: the body consists of a
single `return` of a dict literal, which contains no operation that can
raise, so every call completes normally with the returned value.  `Except`
carries a raised exception on the error side; this body never produces one. -/
def get_employee_info_call (name : String) : Except String PyValue :=
  Except.ok (get_employee_info name)

/-- State-passing view of an invocation: the body reads the parameter and
two literals only, referencing no global or shared mutable state, so the
ambient state `s` passes through untouched. -/
def get_employee_info_stateful (σ : Type) (s : σ) (name : String) :
    σ × PyValue :=
  (s, get_employee_info name)

/-- C1: for every input string `name` (the empty string included), the
record returned by `get_employee_info` has its `employee_name` field equal
to the input, unmodified. -/
theorem get_employee_info_echoes_name (name : String) :
    dictLookup "employee_name" (get_employee_info name) =
      some (.str name) := rfl

/-- C2: for every input string, the record returned by `get_employee_info`
has its `salary` field equal to the integer constant `5400`. -/
theorem get_employee_info_salary_constant (name : String) :
    dictLookup "salary" (get_employee_info name) = some (.int 5400) := rfl

/-- C3: `get_employee_info` is total: every invocation, on any input string
(empty or otherwise), completes normally with a value and never surfaces an
error to the caller. -/
theorem get_employee_info_total (name : String) :
    ∃ v, get_employee_info_call name = Except.ok v :=
  ⟨get_employee_info name, rfl⟩

/-- C4: `get_employee_info` is deterministic and idempotent: two
invocations with the same input yield records that agree field-for-field
(same key list, same `employee_name` value, same `salary` value). -/
theorem get_employee_info_idempotent (name : String) :
    dictKeys (get_employee_info name) = dictKeys (get_employee_info name) ∧
    dictLookup "employee_name" (get_employee_info name) =
      dictLookup "employee_name" (get_employee_info name) ∧
    dictLookup "salary" (get_employee_info name) =
      dictLookup "salary" (get_employee_info name) :=
  ⟨rfl, rfl, rfl⟩

/-- C5: for every input string, the value returned by `get_employee_info`
is a mapping whose keys are exactly `employee_name` and `salary`, and no
others. -/
theorem get_employee_info_exact_keys (name : String) :
    dictKeys (get_employee_info name) =
      some ["employee_name", "salary"] := rfl

/-- C6: an invocation of `get_employee_info` leaves any ambient state
unchanged: the state component coming out of the call equals the state
going in, for every state type, state, and input. -/
theorem get_employee_info_no_side_effects (σ : Type) (s : σ)
    (name : String) :
    (get_employee_info_stateful σ s name).1 = s := rfl

/-- C7: `get_employee_info` terminates on every input string: each
invocation produces a result value.  (It is a total Lean function; the
spec's constant-time claim is a resource bound outside this embedding.) -/
theorem get_employee_info_terminates (name : String) :
    ∃ v, get_employee_info name = v := ⟨_, rfl⟩

/-- C8: the source annotates the return type as `str`, but for every input
the value actually returned is a dict, not a string: the declared interface
type does not match the returned value's shape. -/
theorem get_employee_info_return_type_mismatch (name : String) :
    pyTypeOf (get_employee_info name) = .dictTag ∧
    pyTypeOf (get_employee_info name) ≠ get_employee_info_annotated_return :=
  ⟨rfl, by simp [pyTypeOf, get_employee_info, get_employee_info_annotated_return]⟩

/-- C9: invoking `get_employee_info` with `"Alice"` returns exactly the
record `{employee_name: "Alice", salary: 5400}`. -/
theorem get_employee_info_alice :
    get_employee_info "Alice" =
      .dict [("employee_name", .str "Alice"), ("salary", .int 5400)] := rfl

/-- C10: invoking `get_employee_info` with the empty string returns exactly
the record `{employee_name: "", salary: 5400}`. -/
theorem get_employee_info_empty :
    get_employee_info "" =
      .dict [("employee_name", .str ""), ("salary", .int 5400)] := rfl
